import Mathlib

/-!
Verification development for `komootgpx/imagedownload.py`
(`ImageDownloaderWithExif`).  The Python source is shallowly embedded:
pure helpers become Lean functions over `ℚ` (Python floats are modelled as
exact rationals), fallible code returns `Except`, and the stateful
`download_and_save` procedure is modelled by explicit state passing over an
abstract filesystem map.  External collaborators (the HTTP client, PIL,
piexif's byte-level serialisation, the highlight-lookup API, the
filesystem move) are parameters of the model.
-/

namespace KomootGPX

/-- Python `int(x)` applied to a real number: truncation toward zero. -/
def pyTrunc (q : ℚ) : ℤ :=
  if 0 ≤ q then ⌊q⌋ else -⌊-q⌋

/-- Python `round(x)` to an integer: round half to even (banker's rounding).
This follows the spec's words `round(altitude*100)`; the source itself uses
`int(...)` (see `gpsAltitude`), so this definition exists only to compare
the spec's formula against the source's. -/
def pyRound (q : ℚ) : ℤ :=
  let f := ⌊q⌋
  let r := q - (f : ℚ)
  if r < 1/2 then f
  else if 1/2 < r then f + 1
  else if f % 2 = 0 then f else f + 1

/-- A DMS triple as built by the source: three (numerator, denominator)
rational pairs, `[(d, 1), (m, 1), (int(s * 100), 100)]`. -/
abbrev Dms := (ℤ × ℤ) × (ℤ × ℤ) × (ℤ × ℤ)

/-- Embedding of `ImageDownloaderWithExif._to_dms_rational`:
```
deg_abs = abs(deg)
d = int(deg_abs)
m = int((deg_abs - d) * 60)
s = (deg_abs - d - m / 60) * 3600
return [(d, 1), (m, 1), (int(s * 100), 100)]
``` -/
def toDmsRational (deg : ℚ) : Dms :=
  let degAbs := |deg|
  let d := pyTrunc degAbs
  let m := pyTrunc ((degAbs - (d : ℚ)) * 60)
  let s := (degAbs - (d : ℚ) - (m : ℚ) / 60) * 3600
  ((d, 1), (m, 1), (pyTrunc (s * 100), 100))

/-- The value a DMS triple denotes: `d + m/60 + s/3600`, the seconds taken
as the stored centisecond numerator divided by 100. -/
def dmsValue (t : Dms) : ℚ :=
  (t.1.1 : ℚ) + (t.2.1.1 : ℚ) / 60 + ((t.2.2.1 : ℚ) / 100) / 3600

/-- Line 136: `b"N" if lat >= 0 else b"S"`. -/
def latRef (lat : ℚ) : String :=
  if 0 ≤ lat then "N" else "S"

/-- Line 138: `b"E" if lng >= 0 else b"W"`. -/
def lngRef (lng : ℚ) : String :=
  if 0 ≤ lng then "E" else "W"

/-- Line 141: `piexif.GPSIFD.GPSAltitude: (int(alt * 100), 100)`. -/
def gpsAltitude (alt : ℚ) : ℤ × ℤ :=
  (pyTrunc (alt * 100), 100)

theorem pyTrunc_of_nonneg {q : ℚ} (h : 0 ≤ q) : pyTrunc q = ⌊q⌋ := by
  simp [pyTrunc, h]

/-- Unfolded description of `toDmsRational` in terms of floors, valid for any
input (the intermediate quantities are all nonnegative). -/
theorem toDmsRational_eq (deg : ℚ) :
    toDmsRational deg =
      ((⌊|deg|⌋, 1), (⌊(|deg| - (⌊|deg|⌋ : ℚ)) * 60⌋, 1),
        (⌊(|deg| - (⌊|deg|⌋ : ℚ) - (⌊(|deg| - (⌊|deg|⌋ : ℚ)) * 60⌋ : ℚ) / 60) * 3600 * 100⌋,
          100)) := by
  have h0 : (0 : ℚ) ≤ |deg| := abs_nonneg deg
  have hf : (0 : ℚ) ≤ |deg| - (⌊|deg|⌋ : ℚ) := by
    have := Int.floor_le |deg|
    linarith
  have hm : (0 : ℚ) ≤ (|deg| - (⌊|deg|⌋ : ℚ)) * 60 := by positivity
  have hmf : (⌊(|deg| - (⌊|deg|⌋ : ℚ)) * 60⌋ : ℚ) ≤ (|deg| - (⌊|deg|⌋ : ℚ)) * 60 :=
    Int.floor_le _
  have hs : (0 : ℚ) ≤
      (|deg| - (⌊|deg|⌋ : ℚ) - (⌊(|deg| - (⌊|deg|⌋ : ℚ)) * 60⌋ : ℚ) / 60) * 3600 := by
    nlinarith
  have hs100 : (0 : ℚ) ≤
      (|deg| - (⌊|deg|⌋ : ℚ) - (⌊(|deg| - (⌊|deg|⌋ : ℚ)) * 60⌋ : ℚ) / 60) * 3600 * 100 := by
    nlinarith
  simp only [toDmsRational, pyTrunc_of_nonneg h0, pyTrunc_of_nonneg hm,
    pyTrunc_of_nonneg hs100]

/-- Reconstruction error of the DMS conversion: the reconstructed value
undershoots the absolute input by at least 0 and strictly less than
1/360000 of a degree. -/
theorem dms_error (deg : ℚ) :
    0 ≤ |deg| - dmsValue (toDmsRational deg) ∧
      |deg| - dmsValue (toDmsRational deg) < 1 / 360000 := by
  rw [toDmsRational_eq]
  set A := |deg| with hA
  set D : ℤ := ⌊A⌋ with hD
  set M : ℤ := ⌊(A - (D : ℚ)) * 60⌋ with hM
  set S : ℚ := (A - (D : ℚ) - (M : ℚ) / 60) * 3600 * 100 with hS
  set N : ℤ := ⌊S⌋ with hN
  have h1 : (N : ℚ) ≤ S := Int.floor_le S
  have h2 : S < (N : ℚ) + 1 := Int.lt_floor_add_one S
  have key : A - dmsValue ((D, 1), (M, 1), (N, 100)) = (S - (N : ℚ)) / 360000 := by
    simp only [dmsValue, hS]
    ring
  rw [key]
  constructor
  · linarith
  · linarith

/-- Component bounds of the DMS conversion: degrees and minutes are
nonnegative integers with minutes below 60, and the centisecond numerator
lies in `[0, 6000)` (so the seconds value is in `[0, 60)`). -/
theorem dms_bounds (deg : ℚ) :
    0 ≤ (toDmsRational deg).1.1 ∧
      0 ≤ (toDmsRational deg).2.1.1 ∧ (toDmsRational deg).2.1.1 < 60 ∧
      0 ≤ (toDmsRational deg).2.2.1 ∧ (toDmsRational deg).2.2.1 < 6000 := by
  rw [toDmsRational_eq]
  set A := |deg| with hA
  have h0 : (0 : ℚ) ≤ A := abs_nonneg deg
  set D : ℤ := ⌊A⌋ with hD
  have hDle : (D : ℚ) ≤ A := Int.floor_le A
  have hDlt : A < (D : ℚ) + 1 := Int.lt_floor_add_one A
  set M : ℤ := ⌊(A - (D : ℚ)) * 60⌋ with hM
  have hMle : (M : ℚ) ≤ (A - (D : ℚ)) * 60 := Int.floor_le _
  have hMlt : (A - (D : ℚ)) * 60 < (M : ℚ) + 1 := Int.lt_floor_add_one _
  refine ⟨?_, ?_, ?_, ?_, ?_⟩
  · exact Int.floor_nonneg.mpr h0
  · refine Int.floor_nonneg.mpr ?_
    nlinarith
  · refine Int.floor_lt.mpr ?_
    push_cast
    nlinarith
  · refine Int.floor_nonneg.mpr ?_
    nlinarith
  · refine Int.floor_lt.mpr ?_
    push_cast
    nlinarith

/-- C3: for every latitude in [-90,90] and longitude in [-180,180], the DMS
triple produced by `_to_dms_rational`, reconstructed as d + m/60 + s/3600
with s the stored centisecond numerator divided by 100, equals the absolute
value of the input to within 1/360000 degree, and the hemisphere reference
emitted by `_gps_exif` (N/S for latitude, E/W for longitude) matches the
sign of the input. -/
theorem dms_reconstruction_within_bound (lat lng : ℚ)
    (hlat₁ : -90 ≤ lat) (hlat₂ : lat ≤ 90)
    (hlng₁ : -180 ≤ lng) (hlng₂ : lng ≤ 180) :
    abs (dmsValue (toDmsRational lat) - abs lat) < 1 / 360000 ∧
      abs (dmsValue (toDmsRational lng) - abs lng) < 1 / 360000 ∧
      (0 ≤ lat → latRef lat = "N") ∧ (lat < 0 → latRef lat = "S") ∧
      (0 ≤ lng → lngRef lng = "E") ∧ (lng < 0 → lngRef lng = "W") := by
  obtain ⟨ha1, ha2⟩ := dms_error lat
  obtain ⟨hb1, hb2⟩ := dms_error lng
  refine ⟨?_, ?_, ?_, ?_, ?_, ?_⟩
  · rw [abs_sub_comm, abs_of_nonneg ha1]; exact ha2
  · rw [abs_sub_comm, abs_of_nonneg hb1]; exact hb2
  · intro h; simp [latRef, h]
  · intro h; simp [latRef, not_le.mpr h]
  · intro h; simp [lngRef, h]
  · intro h; simp [lngRef, not_le.mpr h]

theorem dms_reconstruction_witness :
    ((-90 : ℚ) ≤ 97 / 2 ∧ (97 / 2 : ℚ) ≤ 90) ∧
      abs (dmsValue (toDmsRational (97 / 2 : ℚ)) - abs (97 / 2 : ℚ)) < 1 / 360000 :=
  ⟨⟨by norm_num, by norm_num⟩,
    (dms_reconstruction_within_bound (97 / 2) (-135) (by norm_num) (by norm_num)
      (by norm_num) (by norm_num)).1⟩

/-- C7: for every latitude in [-90,90] and longitude in [-180,180], the DMS
triple satisfies d ≥ 0, 0 ≤ m < 60 and 0 ≤ s < 60 (s being the stored
centisecond numerator divided by 100); the sign of the coordinate never
appears in the numeric triple. -/
theorem dms_component_invariants (lat lng : ℚ)
    (hlat₁ : -90 ≤ lat) (hlat₂ : lat ≤ 90)
    (hlng₁ : -180 ≤ lng) (hlng₂ : lng ≤ 180) :
    (0 ≤ (toDmsRational lat).1.1 ∧
      0 ≤ (toDmsRational lat).2.1.1 ∧ (toDmsRational lat).2.1.1 < 60 ∧
      0 ≤ (toDmsRational lat).2.2.1 ∧ ((toDmsRational lat).2.2.1 : ℚ) / 100 < 60) ∧
    (0 ≤ (toDmsRational lng).1.1 ∧
      0 ≤ (toDmsRational lng).2.1.1 ∧ (toDmsRational lng).2.1.1 < 60 ∧
      0 ≤ (toDmsRational lng).2.2.1 ∧ ((toDmsRational lng).2.2.1 : ℚ) / 100 < 60) := by
  obtain ⟨a1, a2, a3, a4, a5⟩ := dms_bounds lat
  obtain ⟨b1, b2, b3, b4, b5⟩ := dms_bounds lng
  have ca : ((toDmsRational lat).2.2.1 : ℚ) < 6000 := by exact_mod_cast a5
  have cb : ((toDmsRational lng).2.2.1 : ℚ) < 6000 := by exact_mod_cast b5
  exact ⟨⟨a1, a2, a3, a4, by linarith⟩, ⟨b1, b2, b3, b4, by linarith⟩⟩

theorem dms_component_witness :
    ((-90 : ℚ) ≤ -97 / 2 ∧ (-97 / 2 : ℚ) ≤ 90) ∧
      0 ≤ (toDmsRational (-97 / 2 : ℚ)).1.1 :=
  ⟨⟨by norm_num, by norm_num⟩,
    ((dms_component_invariants (-97 / 2) 135 (by norm_num) (by norm_num) (by norm_num)
      (by norm_num)).1).1⟩

/-- C2 counterexample: the stored altitude rational is computed with
`int(alt * 100)` (truncation toward zero), not with `round(alt * 100)`:
at altitude 0.019 the code stores numerator 1 while rounding gives 2. -/
theorem gps_altitude_not_round :
    gpsAltitude (19 / 1000) ≠ (pyRound ((19 / 1000 : ℚ) * 100), 100) := by
  have h1 : gpsAltitude (19 / 1000) = (1, 100) := by
    have he : ((19 : ℚ) / 1000) * 100 = 19 / 10 := by norm_num
    simp only [gpsAltitude, pyTrunc, he]
    norm_num
  have h2 : pyRound ((19 / 1000 : ℚ) * 100) = 2 := by
    have he : ((19 : ℚ) / 1000) * 100 = 19 / 10 := by norm_num
    simp only [pyRound, he]
    norm_num
  rw [h1, h2]
  decide

/-- C2 (amended): the GPS altitude is stored as the rational
`(int(altitude*100), 100)` — truncation toward zero; for altitude ≥ 0 the
stored numerator divided by 100 equals the input to within one unit of
2-decimal precision (it undershoots by strictly less than 1/100), and
equals it exactly when the input is given at 2-decimal precision. -/
theorem gps_altitude_accuracy (alt : ℚ) (h : 0 ≤ alt) :
    ((gpsAltitude alt).1 : ℚ) / 100 ≤ alt ∧
      alt - ((gpsAltitude alt).1 : ℚ) / 100 < 1 / 100 ∧
      ∀ k : ℕ, alt = (k : ℚ) / 100 → (gpsAltitude alt).1 = k := by
  have h100 : (0 : ℚ) ≤ alt * 100 := by positivity
  have hfl : (gpsAltitude alt).1 = ⌊alt * 100⌋ := by
    simp [gpsAltitude, pyTrunc_of_nonneg h100]
  have hle : ((⌊alt * 100⌋ : ℤ) : ℚ) ≤ alt * 100 := Int.floor_le _
  have hlt : alt * 100 < ((⌊alt * 100⌋ : ℤ) : ℚ) + 1 := Int.lt_floor_add_one _
  rw [hfl]
  refine ⟨by linarith, by linarith, ?_⟩
  intro k hk
  have : alt * 100 = (k : ℚ) := by rw [hk]; ring
  rw [this]
  exact_mod_cast Int.floor_natCast k

theorem gps_altitude_witness :
    (0 : ℚ) ≤ 1234 / 100 ∧ ((gpsAltitude (1234 / 100)).1 : ℚ) / 100 ≤ 1234 / 100 :=
  ⟨by norm_num, (gps_altitude_accuracy (1234 / 100) (by norm_num)).1⟩

/-- Error outcomes of the embedded code.  `typeError` and `valueError` are
Python's untyped runtime errors (`TypeError` from comparing `None` with `0`,
`ValueError` from `strptime`); the rest tag the failing external step. -/
inductive Err where
  | fetchError
  | lookupError
  | decodeError
  | typeError
  | valueError
  | encodeError
  | publishError
deriving Repr, DecidableEq

/-- The `location` dict of the record: `image_data.get("location", {})`,
modelled through its three relevant keys, each possibly absent. -/
structure Location where
  lat : Option ℚ
  lng : Option ℚ
  alt : Option ℚ
deriving Repr, DecidableEq

/-- Python truthiness of the location dict: `not self.location` holds when
the dict has no entries. -/
def Location.isEmpty (l : Location) : Bool :=
  l.lat.isNone && l.lng.isNone && l.alt.isNone

/-- The GPS IFD built by `_gps_exif` when the location is non-empty. -/
structure GpsIfd where
  latRefv : String
  latDms : Dms
  lngRefv : String
  lngDms : Dms
  altRefv : ℕ
  altRat : ℤ × ℤ
deriving Repr, DecidableEq

/-- Embedding of `ImageDownloaderWithExif._gps_exif` (lines 127-142).  An empty location
yields no GPS group (`.ok none`, the Python `{}`).  Otherwise
`lat = self.location.get("lat")` and `lng = self.location.get("lng")` are
read; the expressions `lat >= 0` / `lng >= 0` raise `TypeError` when the
key is absent (`None` compared against `0`), in evaluation order (latitude
first).  `alt` defaults to 0. -/
def gpsExif (loc : Location) : Except Err (Option GpsIfd) :=
  if loc.isEmpty then .ok none
  else
    match loc.lat with
    | none => .error .typeError
    | some lat =>
      match loc.lng with
      | none => .error .typeError
      | some lng =>
        let alt := loc.alt.getD 0
        .ok (some
          { latRefv := latRef lat
            latDms := toDmsRational lat
            lngRefv := lngRef lng
            lngDms := toDmsRational lng
            altRefv := 0
            altRat := gpsAltitude alt })

/-- piexif tag constants used by the source. -/
def imageDescriptionTag : ℕ := 270
def artistTag : ℕ := 315
def dateTimeOriginalTag : ℕ := 36867
def dateTimeDigitizedTag : ℕ := 36868

/-- The `"0th"` IFD of `_build_exif` (lines 105-116): the description key is
spliced in only when `self.name` is truthy (non-empty), the artist key only
when `self.creator_display_name` is truthy. -/
def zerothIfd (name creator : String) : List (ℕ × String) :=
  (if name ≠ "" then [(imageDescriptionTag, name)] else []) ++
    (if creator ≠ "" then [(artistTag, creator)] else [])

/-- Python `str.lower()` on the ASCII range, over the character list of a
string. -/
def lowerL (s : List Char) : List Char :=
  s.map Char.toLower

/-- Python `s.endswith(pat)` over character lists. -/
def endsWithL (s pat : List Char) : Bool :=
  decide (s.reverse.take pat.length = pat.reverse)

/-- Python `pat in s` (substring containment) over character lists. -/
def containsL (s pat : List Char) : Bool :=
  (List.range (s.length + 1)).any fun i => decide ((s.drop i).take pat.length = pat)

/-- Line 72: `is_png = "image/png" in content_type or url.lower().endswith(".png")`, with `content_type` lower-cased as on line 71 and `url` the
query-stripped source URL. -/
def isPngOf (contentType url : String) : Bool :=
  containsL (lowerL contentType.data) "image/png".data ||
    endsWithL (lowerL url.data) ".png".data

/-- The normalization step of `download_and_save` (lines 48-49): re-encode
through `_png_to_jpeg` (modelled as the opaque `pngToJpeg` collaborator)
only when the payload was classified as PNG, otherwise keep the bytes. -/
def normalizeBytes (pngToJpeg : ℕ → Except Err ℕ) (b : ℕ) (isPng : Bool) :
    Except Err ℕ :=
  if isPng then pngToJpeg b else .ok b

/-- C6: when the effective name is the empty string, the description key is
entirely absent from the built `"0th"` IFD (not present with an empty
value), and likewise the artist key is absent when the effective author
string is empty; conversely a non-empty value makes the key present. -/
theorem metadata_keys_absent_when_empty :
    (∀ creator : String, (zerothIfd "" creator).lookup imageDescriptionTag = none) ∧
      (∀ name : String, (zerothIfd name "").lookup artistTag = none) ∧
      (∀ name creator : String, name ≠ "" →
        (zerothIfd name creator).lookup imageDescriptionTag = some name) ∧
      (∀ name creator : String, creator ≠ "" →
        (zerothIfd name creator).lookup artistTag = some creator) := by
  refine ⟨?_, ?_, ?_, ?_⟩
  · intro creator
    by_cases h : creator = "" <;>
      simp [zerothIfd, h, imageDescriptionTag, artistTag, List.lookup]
  · intro name
    by_cases h : name = "" <;>
      simp [zerothIfd, h, imageDescriptionTag, artistTag, List.lookup]
  · intro name creator hn
    by_cases h : creator = "" <;>
      simp [zerothIfd, hn, h, imageDescriptionTag, artistTag, List.lookup]
  · intro name creator hc
    by_cases h : name = "" <;>
      simp [zerothIfd, hc, h, imageDescriptionTag, artistTag, List.lookup]

theorem metadata_keys_witness :
    (zerothIfd "" "bob").lookup imageDescriptionTag = none ∧
      (zerothIfd "alp" "bob").lookup imageDescriptionTag = some "alp" :=
  ⟨metadata_keys_absent_when_empty.1 "bob",
    metadata_keys_absent_when_empty.2.2.1 "alp" "bob" (by decide)⟩

/-- C8: a payload classified as not PNG — by the declared content type or,
failing that, by the stripped URL's extension — passes through the
normalization step unchanged, for every possible re-encoder. -/
theorem jpeg_passthrough (contentType url : String)
    (pngToJpeg : ℕ → Except Err ℕ) (b : ℕ)
    (h : isPngOf contentType url = false) :
    normalizeBytes pngToJpeg b (isPngOf contentType url) = .ok b := by
  rw [normalizeBytes, h]
  rfl

theorem jpeg_passthrough_witness :
    isPngOf "image/jpeg" "a.jpg" = false ∧
      normalizeBytes (fun n => .ok (n + 1)) 7 (isPngOf "image/jpeg" "a.jpg") =
        .ok 7 :=
  ⟨by decide, jpeg_passthrough "image/jpeg" "a.jpg" (fun n => .ok (n + 1)) 7 (by decide)⟩

/-- C10: when the location dict is non-empty but lacks a numeric `lat` or
`lng` entry, `_gps_exif` raises an untyped `TypeError` (a `None` value is
compared against 0) instead of omitting the geodetic group; with both
entries numeric the GPS block is well defined. -/
theorem gps_requires_numeric_latlng (loc : Location) (hne : loc.isEmpty = false) :
    ((loc.lat = none ∨ loc.lng = none) → gpsExif loc = .error .typeError) ∧
      ∀ lat lng, loc.lat = some lat → loc.lng = some lng →
        gpsExif loc = .ok (some
          { latRefv := latRef lat
            latDms := toDmsRational lat
            lngRefv := lngRef lng
            lngDms := toDmsRational lng
            altRefv := 0
            altRat := gpsAltitude (loc.alt.getD 0) }) := by
  constructor
  · rintro (h | h)
    · simp [gpsExif, hne, h]
    · cases hl : loc.lat with
      | none => simp [gpsExif, hne, hl]
      | some lat => simp [gpsExif, hne, hl, h]
  · intro lat lng h1 h2
    simp [gpsExif, hne, h1, h2]

theorem gps_requires_witness :
    (Location.mk none none (some 5)).isEmpty = false ∧
      gpsExif (Location.mk none none (some 5)) = .error .typeError :=
  ⟨by decide, (gps_requires_numeric_latlng (Location.mk none none (some 5))
    (by decide)).1 (Or.inl rfl)⟩

/-- A parsed naive datetime, as produced by
`datetime.strptime(created_at, "%Y-%m-%dT%H:%M:%S.%fZ")`. -/
structure DateTime where
  year : ℤ
  month : ℤ
  day : ℤ
  hour : ℤ
  minute : ℤ
  second : ℤ
  micro : ℤ
deriving Repr, DecidableEq

def isLeap (y : ℤ) : Bool :=
  (y % 4 == 0 && y % 100 != 0) || y % 400 == 0

def daysInMonth (y m : ℤ) : ℤ :=
  if m = 2 then (if isLeap y then 29 else 28)
  else if m = 4 ∨ m = 6 ∨ m = 9 ∨ m = 11 then 30
  else 31

/-- Numeric value of a digit run. -/
def digitsVal (cs : List Char) : ℤ :=
  cs.foldl (fun a c => a * 10 + ((c.toNat : ℤ) - 48)) 0

/-- Read a nonempty digit run followed by the literal separator `sep`;
return the value, the number of digits and the remaining input. -/
def parseNumSep (cs : List Char) (sep : Char) : Option (ℤ × ℕ × List Char) :=
  let ds := cs.takeWhile Char.isDigit
  let rest := cs.dropWhile Char.isDigit
  if ds.isEmpty then none
  else
    match rest with
    | c :: rest' => if c = sep then some (digitsVal ds, ds.length, rest') else none
    | [] => none

/-- Line 147: `datetime.strptime(created_at, "%Y-%m-%dT%H:%M:%S.%fZ")`:
fixed-format parse with field validation; `%f` is scaled to microseconds.
A mismatch is `strptime`'s `ValueError`, surfaced by the caller. -/
def parseCreatedAt (s : String) : Option DateTime := do
  let (y, ny, r1) ← parseNumSep s.data '-'
  let (mo, nmo, r2) ← parseNumSep r1 '-'
  let (d, nd, r3) ← parseNumSep r2 'T'
  let (h, nh, r4) ← parseNumSep r3 ':'
  let (mi, nmi, r5) ← parseNumSep r4 ':'
  let (se, nse, r6) ← parseNumSep r5 '.'
  let (us, nus, r7) ← parseNumSep r6 'Z'
  if r7 = [] ∧ ny ≤ 4 ∧ nmo ≤ 2 ∧ nd ≤ 2 ∧ nh ≤ 2 ∧ nmi ≤ 2 ∧ nse ≤ 2 ∧ nus ≤ 6 ∧
      1 ≤ y ∧ y ≤ 9999 ∧ 1 ≤ mo ∧ mo ≤ 12 ∧ 1 ≤ d ∧ d ≤ daysInMonth y mo ∧
      0 ≤ h ∧ h ≤ 23 ∧ 0 ≤ mi ∧ mi ≤ 59 ∧ 0 ≤ se ∧ se ≤ 59 then
    some ⟨y, mo, d, h, mi, se, us * (10 : ℤ) ^ (6 - nus)⟩
  else none

/-- Days since the Unix epoch of a civil date (proleptic Gregorian). -/
def daysFromCivil (y m d : ℤ) : ℤ :=
  let y' := if m ≤ 2 then y - 1 else y
  let era := y' / 400
  let yoe := y' - era * 400
  let mp := (m + 9) % 12
  let doy := (153 * mp + 2) / 5 + d - 1
  let doe := yoe * 365 + yoe / 4 - yoe / 100 + doy
  era * 146097 + doe - 719468

/-- Civil date of a day count since the Unix epoch. -/
def civilFromDays (z : ℤ) : ℤ × ℤ × ℤ :=
  let z' := z + 719468
  let era := z' / 146097
  let doe := z' - era * 146097
  let yoe := (doe - doe / 1460 + doe / 36524 - doe / 146096) / 365
  let y := yoe + era * 400
  let doy := doe - (365 * yoe + yoe / 4 - yoe / 100)
  let mp := (5 * doy + 2) / 153
  let d := doy - (153 * mp + 2) / 5 + 1
  let m := if mp < 10 then mp + 3 else mp - 9
  (if m ≤ 2 then y + 1 else y, m, d)

def digitChar (n : ℤ) : Char :=
  Char.ofNat (48 + n.toNat)

/-- Two-digit zero-padded rendering (strftime `%m %d %H %M %S`). -/
def render2 (n : ℤ) : List Char :=
  [digitChar (n / 10 % 10), digitChar (n % 10)]

/-- Four-digit zero-padded rendering (strftime `%Y`, years 1-9999). -/
def render4 (n : ℤ) : List Char :=
  [digitChar (n / 1000 % 10), digitChar (n / 100 % 10),
    digitChar (n / 10 % 10), digitChar (n % 10)]

/-- Embedding of `dt_local.strftime("%Y:%m:%d %H:%M:%S")` applied to the instant `secs`
(seconds since epoch of the local civil time): colon-separated date, no
sub-second part, no zone suffix. -/
def renderLocal (secs : ℤ) : String :=
  let days := secs / 86400
  let sod := secs % 86400
  let c := civilFromDays days
  ⟨render4 c.1 ++ ':' :: render2 c.2.1 ++ ':' :: render2 c.2.2 ++
    ' ' :: render2 (sod / 3600) ++ ':' :: render2 (sod % 3600 / 60) ++
    ':' :: render2 (sod % 60)⟩

/-- Embedding of `ImageDownloaderWithExif._format_created_at_local` (lines 146-152):
parse `created_at` as UTC with the fixed format, shift into the configured
civil time zone (`astimezone`; the zone is the collaborator `tz`, giving
the UTC offset in seconds at a given UTC instant), and render with
`"%Y:%m:%d %H:%M:%S"`. -/
def formatCreatedAtLocal (tz : ℤ → ℤ) (createdAt : String) : Except Err String :=
  match parseCreatedAt createdAt with
  | none => .error .valueError
  | some dt =>
    let utcSecs := daysFromCivil dt.year dt.month dt.day * 86400 +
      dt.hour * 3600 + dt.minute * 60 + dt.second
    .ok (renderLocal (utcSecs + tz utcSecs))

/-- The full EXIF dictionary of `_build_exif` (lines 101-125): the `"0th"`
IFD with conditional keys, the `"Exif"` IFD carrying the rendered capture
time twice, and the GPS IFD.  (`"1st"` is always empty.) -/
structure ExifDict where
  zeroth : List (ℕ × String)
  exif : List (ℕ × String)
  gps : Option GpsIfd
deriving Repr, DecidableEq

/-- Embedding of `ImageDownloaderWithExif._build_exif`, up to `piexif.dump` (modelled
separately as a collaborator): the rendered local capture time is computed
first, then the dictionary is assembled; `_gps_exif` may raise. -/
def buildExif (tz : ℤ → ℤ) (name creator createdAt : String) (loc : Location) :
    Except Err ExifDict :=
  match formatCreatedAtLocal tz createdAt with
  | .error e => .error e
  | .ok created =>
    match gpsExif loc with
    | .error e => .error e
    | .ok gps =>
      .ok { zeroth := zerothIfd name creator
            exif := [(dateTimeOriginalTag, created), (dateTimeDigitizedTag, created)]
            gps := gps }

/-- C4: the capture timestamp is parsed as UTC in the fixed format
`YYYY-MM-DDTHH:MM:SS.ffffffZ`, converted to the configured civil time zone
and rendered as `YYYY:MM:DD HH:MM:SS`; both the original and the digitized
timestamp fields of the built EXIF dictionary receive this identical
rendered value; in particular `2024-06-01T12:00:00.000000Z` at UTC+2
(Europe/Berlin in June) renders as `2024:06:01 14:00:00`. -/
theorem created_at_rendering (tz : ℤ → ℤ) (name creator createdAt : String)
    (loc : Location) (e : ExifDict)
    (hb : buildExif tz name creator createdAt loc = .ok e) :
    (∃ c, formatCreatedAtLocal tz createdAt = .ok c ∧
        e.exif = [(dateTimeOriginalTag, c), (dateTimeDigitizedTag, c)]) ∧
      formatCreatedAtLocal (fun _ => 7200) "2024-06-01T12:00:00.000000Z" =
        .ok "2024:06:01 14:00:00" := by
  refine ⟨?_, by rfl⟩
  unfold buildExif at hb
  cases hf : formatCreatedAtLocal tz createdAt with
  | error err => rw [hf] at hb; cases hb
  | ok c =>
    rw [hf] at hb
    cases hg : gpsExif loc with
    | error err => rw [hg] at hb; cases hb
    | ok g =>
      rw [hg] at hb
      cases hb
      exact ⟨c, rfl, rfl⟩

theorem created_at_witness :
    buildExif (fun _ => 7200) "n" "" "2024-06-01T12:00:00.000000Z"
        (Location.mk none none none) =
      .ok (ExifDict.mk [(imageDescriptionTag, "n")]
        [(dateTimeOriginalTag, "2024:06:01 14:00:00"),
          (dateTimeDigitizedTag, "2024:06:01 14:00:00")] none) ∧
      ∃ c, formatCreatedAtLocal (fun _ => 7200) "2024-06-01T12:00:00.000000Z" =
          .ok c ∧
        (ExifDict.mk [(imageDescriptionTag, "n")]
          [(dateTimeOriginalTag, "2024:06:01 14:00:00"),
            (dateTimeDigitizedTag, "2024:06:01 14:00:00")] none).exif =
          [(dateTimeOriginalTag, c), (dateTimeDigitizedTag, c)] :=
  ⟨by rfl,
    (created_at_rendering (fun _ => 7200) "n" "" "2024-06-01T12:00:00.000000Z"
      (Location.mk none none none) _ (by rfl)).1⟩

/-- Abstract file paths. -/
abbrev Path := ℕ

/-- Abstract byte strings (their content is never inspected by the code
under verification; transformations on them are collaborator functions). -/
abbrev Bytes := ℕ

/-- The filesystem visible to `download_and_save`: what, if anything, is
stored at each path. -/
abbrev Fs := Path → Option Bytes

def setFs (fs : Fs) (p : Path) (v : Option Bytes) : Fs :=
  fun q => if q = p then v else fs q

structure Highlight where
  baseName : String
  creatorName : String
deriving Repr, DecidableEq

/-- Modelled from the spec: `api.fetch_highlight` — code of this repository
that is not under `src/` (only its caller is).  Per the spec, lookup
failures "must not abort the whole operation if the capability is invoked
in non-fatal mode — callers configure this; absent an explicit mode the
failure propagates".  `raw` is the underlying lookup outcome; in silent
(non-fatal) mode a failure is swallowed and an empty record is returned,
whose absent fields read back as empty strings via
`highlight.get('base_name', '')`. -/
def fetchHighlightApi (silent : Bool) (raw : Except Err Highlight) :
    Except Err Highlight :=
  match raw with
  | .ok h => .ok h
  | .error e => if silent then .ok ⟨"", ""⟩ else .error e

/-- The fields of `ImageDownloaderWithExif` read from `image_data` in
`__init__` (lines 29-35). -/
structure Record where
  id : ℕ
  name : String
  src : String
  createdAt : String
  location : Location
  creatorDisplayName : String
  highlightId : Option ℕ
deriving Repr, DecidableEq

/-- Lines 43-46 of `download_and_save`: when `self.highlight_id` is truthy
(present and nonzero), the highlight is resolved with `silent=True`
hard-coded at the call site, and name and creator are overridden from the
result. -/
def nameCreatorAfterHighlight (rec : Record) (raw : Except Err Highlight) :
    Except Err (String × String) :=
  match rec.highlightId with
  | none => .ok (rec.name, rec.creatorDisplayName)
  | some hid =>
    if hid = 0 then .ok (rec.name, rec.creatorDisplayName)
    else
      match fetchHighlightApi true raw with
      | .error e => .error e
      | .ok h => .ok (h.baseName, h.creatorName)

/-- The steps of `download_and_save` before the temporary file is created
(lines 42-51): fetch (modelled by its outcome `fetchResult`, carrying the
payload and its PNG classification), highlight override, PNG
normalization, EXIF construction and `piexif.dump` (the collaborator
`dump`).  Returns the serialized EXIF bytes and the image bytes to
write. -/
def prePublish (rec : Record) (tz : ℤ → ℤ)
    (fetchResult : Except Err (Bytes × Bool))
    (highlightRaw : Except Err Highlight)
    (pngToJpeg : Bytes → Except Err Bytes)
    (dump : ExifDict → Except Err Bytes) :
    Except Err (Bytes × Bytes) :=
  match fetchResult with
  | .error e => .error e
  | .ok (imageBytes, isPng) =>
    match nameCreatorAfterHighlight rec highlightRaw with
    | .error e => .error e
    | .ok nc =>
      match normalizeBytes pngToJpeg imageBytes isPng with
      | .error e => .error e
      | .ok finalBytes =>
        match buildExif tz nc.1 nc.2 rec.createdAt rec.location with
        | .error e => .error e
        | .ok exifDict =>
          match dump exifDict with
          | .error e => .error e
          | .ok exifBytes => .ok (exifBytes, finalBytes)

/-- Embedding of `ImageDownloaderWithExif.download_and_save` (lines 41-62) as a state
transformer over the abstract filesystem: after `prePublish`, the image
bytes are written to a freshly created temporary file (`delete=False`),
`piexif.insert` (collaborator `insert`, giving the injected file content)
rewrites it in place, and `shutil.move` (atomic in the model, succeeding
iff `moveOk`) publishes it at `outputPath`.  The source wraps none of this
in cleanup handlers: a failure after the temporary write leaves the
temporary file behind. -/
def downloadAndSave (rec : Record) (tz : ℤ → ℤ)
    (fetchResult : Except Err (Bytes × Bool))
    (highlightRaw : Except Err Highlight)
    (pngToJpeg : Bytes → Except Err Bytes)
    (dump : ExifDict → Except Err Bytes)
    (insert : Bytes → Bytes → Except Err Bytes)
    (moveOk : Bool) (tmpPath outputPath : Path) (fs : Fs) :
    Except Err Path × Fs :=
  match prePublish rec tz fetchResult highlightRaw pngToJpeg dump with
  | .error e => (.error e, fs)
  | .ok eb =>
    let fs1 := setFs fs tmpPath (some eb.2)
    match insert eb.1 eb.2 with
    | .error e => (.error e, fs1)
    | .ok injected =>
      let fs2 := setFs fs1 tmpPath (some injected)
      if moveOk then
        (.ok outputPath, setFs (setFs fs2 tmpPath none) outputPath (some injected))
      else (.error .publishError, fs2)

/-- C1: when the destination path starts out without a file (and the fresh
temporary path differs from it, as `tempfile.NamedTemporaryFile`
guarantees), a file exists at the caller-specified output path after
`download_and_save` exactly when the whole operation succeeded; every
failing step surfaces as an error and leaves no file at the output
path. -/
theorem output_exists_iff_success (rec : Record) (tz : ℤ → ℤ)
    (fetchResult : Except Err (Bytes × Bool)) (highlightRaw : Except Err Highlight)
    (pngToJpeg : Bytes → Except Err Bytes) (dump : ExifDict → Except Err Bytes)
    (insert : Bytes → Bytes → Except Err Bytes) (moveOk : Bool)
    (tmpPath outputPath : Path) (fs : Fs)
    (hto : tmpPath ≠ outputPath) (hout : fs outputPath = none) :
    (((downloadAndSave rec tz fetchResult highlightRaw pngToJpeg dump insert moveOk
        tmpPath outputPath fs).2 outputPath).isSome = true ↔
      ∃ p, (downloadAndSave rec tz fetchResult highlightRaw pngToJpeg dump insert moveOk
        tmpPath outputPath fs).1 = .ok p) := by
  have hout' : outputPath ≠ tmpPath := Ne.symm hto
  unfold downloadAndSave
  cases hp : prePublish rec tz fetchResult highlightRaw pngToJpeg dump with
  | error e => simp [hout]
  | ok eb =>
    cases hi : insert eb.1 eb.2 with
    | error e => simp [hi, setFs, hout', hout]
    | ok injected =>
      cases moveOk with
      | true => simp [hi, setFs]
      | false => simp [hi, setFs, hout', hout]

theorem output_exists_witness :
    ((0 : Path) ≠ 1 ∧ (fun _ => none : Fs) 1 = none) ∧
      (((downloadAndSave ⟨1, "nm", "u", "2024-06-01T12:00:00.000000Z",
          Location.mk none none none, "cr", none⟩ (fun _ => 0) (.ok (5, false))
          (.ok ⟨"", ""⟩) (fun b => .ok b) (fun _ => .ok 9) (fun _ b => .ok b) true
          0 1 (fun _ => none)).2 1).isSome = true ↔
        ∃ p, (downloadAndSave ⟨1, "nm", "u", "2024-06-01T12:00:00.000000Z",
          Location.mk none none none, "cr", none⟩ (fun _ => 0) (.ok (5, false))
          (.ok ⟨"", ""⟩) (fun b => .ok b) (fun _ => .ok 9) (fun _ b => .ok b) true
          0 1 (fun _ => none)).1 = .ok p) :=
  ⟨⟨by decide, rfl⟩,
    output_exists_iff_success _ _ _ _ _ _ _ _ 0 1 (fun _ => none) (by decide) rfl⟩

/-- C5 counterexample: a record carrying a (truthy) highlight reference,
whose lookup fails, still completes `download_and_save` successfully — the
lookup failure does not propagate, although no caller configured anything:
`silent=True` is hard-coded at the call site. -/
theorem highlight_failure_ignored_concretely :
    (downloadAndSave ⟨1, "nm", "u", "2024-06-01T12:00:00.000000Z",
        Location.mk none none none, "cr", some 7⟩ (fun _ => 0) (.ok (5, false))
        (.error .lookupError) (fun b => .ok b) (fun _ => .ok 9) (fun _ b => .ok b)
        true 0 1 (fun _ => none)).1 = .ok 1 := by
  rfl

lemma nameCreator_error_eq_empty (rec : Record) (e : Err) :
    nameCreatorAfterHighlight rec (.error e) =
      nameCreatorAfterHighlight rec (.ok ⟨"", ""⟩) := by
  unfold nameCreatorAfterHighlight fetchHighlightApi
  cases rec.highlightId with
  | none => rfl
  | some hid => by_cases h : hid = 0 <;> simp [h]

/-- C5 (amended): `download_and_save` invokes the highlight lookup with
`silent=True` hard-coded — non-fatal mode is not caller-configured and is
in effect on every invocation; a failure of the highlight lookup never
aborts the operation and is indistinguishable from a lookup that returned
an empty highlight. -/
theorem highlight_failure_never_aborts (rec : Record) (tz : ℤ → ℤ)
    (fetchResult : Except Err (Bytes × Bool)) (e : Err)
    (pngToJpeg : Bytes → Except Err Bytes) (dump : ExifDict → Except Err Bytes)
    (insert : Bytes → Bytes → Except Err Bytes) (moveOk : Bool)
    (tmpPath outputPath : Path) (fs : Fs) :
    downloadAndSave rec tz fetchResult (.error e) pngToJpeg dump insert moveOk
        tmpPath outputPath fs =
      downloadAndSave rec tz fetchResult (.ok ⟨"", ""⟩) pngToJpeg dump insert moveOk
        tmpPath outputPath fs := by
  unfold downloadAndSave prePublish
  rw [nameCreator_error_eq_empty]

/-- C9 counterexample: a run in which `piexif.insert` fails after the
temporary file has been written: the call errors out and the temporary
file remains on disk — it is neither removed nor relocated. -/
theorem temp_orphan_on_insert_failure :
    (downloadAndSave ⟨1, "nm", "u", "2024-06-01T12:00:00.000000Z",
          Location.mk none none none, "cr", none⟩ (fun _ => 0) (.ok (5, false))
          (.ok ⟨"", ""⟩) (fun b => .ok b) (fun _ => .ok 9)
          (fun _ _ => .error .encodeError) true 0 1 (fun _ => none)).1 =
        .error .encodeError ∧
      (downloadAndSave ⟨1, "nm", "u", "2024-06-01T12:00:00.000000Z",
          Location.mk none none none, "cr", none⟩ (fun _ => 0) (.ok (5, false))
          (.ok ⟨"", ""⟩) (fun b => .ok b) (fun _ => .ok 9)
          (fun _ _ => .error .encodeError) true 0 1 (fun _ => none)).2 0 = some 5 := by
  exact ⟨rfl, rfl⟩

/-- C9 (amended): on success the temporary file is relocated to the output
path and removed from its temporary location, and on a failure before the
temporary file is created the filesystem is untouched; but on a failure
after the temporary file has been created (metadata injection or move
failure) the temporary file remains on disk — the source has no cleanup
path for it. -/
theorem temp_file_lifecycle (rec : Record) (tz : ℤ → ℤ)
    (fetchResult : Except Err (Bytes × Bool)) (highlightRaw : Except Err Highlight)
    (pngToJpeg : Bytes → Except Err Bytes) (dump : ExifDict → Except Err Bytes)
    (insert : Bytes → Bytes → Except Err Bytes) (moveOk : Bool)
    (tmpPath outputPath : Path) (fs : Fs)
    (hto : tmpPath ≠ outputPath) :
    (∀ p, (downloadAndSave rec tz fetchResult highlightRaw pngToJpeg dump insert moveOk
        tmpPath outputPath fs).1 = .ok p →
      (downloadAndSave rec tz fetchResult highlightRaw pngToJpeg dump insert moveOk
        tmpPath outputPath fs).2 tmpPath = none) ∧
    (∀ eb, prePublish rec tz fetchResult highlightRaw pngToJpeg dump = .ok eb →
      ∀ e, (downloadAndSave rec tz fetchResult highlightRaw pngToJpeg dump insert moveOk
          tmpPath outputPath fs).1 = .error e →
        ((downloadAndSave rec tz fetchResult highlightRaw pngToJpeg dump insert moveOk
          tmpPath outputPath fs).2 tmpPath).isSome = true) ∧
    (∀ e, prePublish rec tz fetchResult highlightRaw pngToJpeg dump = .error e →
      (downloadAndSave rec tz fetchResult highlightRaw pngToJpeg dump insert moveOk
        tmpPath outputPath fs).2 = fs) := by
  unfold downloadAndSave
  cases hp : prePublish rec tz fetchResult highlightRaw pngToJpeg dump with
  | error e =>
    refine ⟨?_, ?_, ?_⟩
    · intro p h; cases h
    · intro eb heb; cases heb
    · intro e' _; rfl
  | ok eb =>
    refine ⟨?_, ?_, ?_⟩
    · intro p h
      cases hi : insert eb.1 eb.2 with
      | error e => simp [hi] at h
      | ok injected =>
        cases moveOk with
        | true => simp [hi, setFs, hto]
        | false => simp [hi] at h
    · intro eb' heb' e h
      cases hi : insert eb.1 eb.2 with
      | error e' => simp [hi, setFs]
      | ok injected =>
        cases moveOk with
        | true => simp [hi] at h
        | false => simp [hi, setFs]
    · intro e h; cases h

theorem temp_file_witness :
    ((0 : Path) ≠ 1) ∧
      ((downloadAndSave ⟨1, "nm", "u", "2024-06-01T12:00:00.000000Z",
          Location.mk none none none, "cr", none⟩ (fun _ => 0) (.ok (5, false))
          (.ok ⟨"", ""⟩) (fun b => .ok b) (fun _ => .ok 9) (fun _ b => .ok b) true
          0 1 (fun _ => none)).2 0 = none) :=
  ⟨by decide,
    (temp_file_lifecycle ⟨1, "nm", "u", "2024-06-01T12:00:00.000000Z",
        Location.mk none none none, "cr", none⟩ (fun _ => 0) (.ok (5, false))
        (.ok ⟨"", ""⟩) (fun b => .ok b) (fun _ => .ok 9) (fun _ b => .ok b) true
        0 1 (fun _ => none) (by decide)).1 1 rfl⟩

end KomootGPX
